import Mathlib

/-!
Shallow embedding of `main.py` from the Light-Novel-Generator repository.

The program is a single-file pipeline: initialize a `Book`, parse a
character list and a plot outline out of backend responses presumed to be
JSON, expand each chapter, and export the book as a flat text document.

Modelling conventions:
* A backend response that `json.loads` would reject is `Option.none`;
  a successfully decoded response is `some (j : Json)` for the value type
  below (Python `None`/bool/int/str/list/dict as produced by `json.loads`;
  numbers are modelled as integers, which covers every input the claims
  need).
* Python operations that can raise are functions into `Except PyErr _`;
  an uncaught exception surfaces as `.error`.
* Console printing and file I/O are dropped; `export_book` is modelled as
  the document string it writes, and the early-return branch of `main`
  carries the message it prints.
-/

/-- JSON values as decoded by Python `json.loads`. Object fields are kept
in insertion order with distinct keys (as `json.loads` produces). -/
inductive Json where
  | null : Json
  | bool : Bool → Json
  | num : Int → Json
  | str : String → Json
  | arr : List Json → Json
  | obj : List (String × Json) → Json


/-- The Python exceptions the pipeline can actually raise and not catch. -/
inductive PyErr where
  | typeError : PyErr
  | keyError : String → PyErr
  | indexError : PyErr


/-- First-match lookup in a JSON object's field list (Python dict access
on `json.loads` output, whose keys are distinct). -/
def jlookup (fs : List (String × Json)) (k : String) : Option Json :=
  (fs.find? (fun p => p.1 == k)).map (fun p => p.2)

/-- Python truthiness (`if x:` / `if not x:`) of a decoded JSON value. -/
def pyTruthy : Json → Bool
  | Json.null => false
  | Json.bool b => b
  | Json.num n => n != 0
  | Json.str s => s != ""
  | Json.arr xs => !xs.isEmpty
  | Json.obj fs => !fs.isEmpty

/-- Python `isinstance(x, list)` on a decoded JSON value. -/
def isPyList : Json → Bool
  | Json.arr _ => true
  | _ => false

/-- Whether `needle` occurs as a contiguous sublist of the second list
(Python substring membership on the character level). -/
def hasSubAux (needle : List Char) : List Char → Bool
  | [] => needle.isEmpty
  | c :: rest => needle.isPrefixOf (c :: rest) || hasSubAux needle rest

/-- Python `k in x` for a string `k`: key membership for dicts, element
membership for lists (string equality against each element), substring
test for strings, and a `TypeError` for the non-container values. -/
def pyContains (k : String) : Json → Except PyErr Bool
  | Json.obj fs => Except.ok (fs.any (fun p => p.1 == k))
  | Json.arr xs =>
      Except.ok (xs.any (fun x =>
        match x with
        | Json.str s => s == k
        | _ => false))
  | Json.str s => Except.ok (hasSubAux k.data s.data)
  | _ => Except.error PyErr.typeError

/-- Python `x[k]` for a string key `k`: dict lookup (raising `KeyError`
when absent), `TypeError` on everything else. -/
def pySubscript (x : Json) (k : String) : Except PyErr Json :=
  match x with
  | Json.obj fs =>
      match jlookup fs k with
      | some v => Except.ok v
      | none => Except.error (PyErr.keyError k)
  | _ => Except.error PyErr.typeError

/-- Python `x[i]` for a non-negative integer index: list indexing with
`IndexError` past the end, `TypeError` on non-sequences. (String indexing
never occurs in the pipeline, so it is folded into `TypeError` here only
for dicts/scalars, and handled for lists, the one case `main` exercises.) -/
def pyIndex (x : Json) (i : Nat) : Except PyErr Json :=
  match x with
  | Json.arr xs =>
      match xs.get? i with
      | some v => Except.ok v
      | none => Except.error PyErr.indexError
  | _ => Except.error PyErr.typeError

/-- The characters `str.split()` treats as whitespace (space, tab,
newline, carriage return, vertical tab, form feed). -/
def pyWs (c : Char) : Bool :=
  c = ' ' || c = '\t' || c = '\n' || c = '\r' ||
  c = Char.ofNat 11 || c = Char.ofNat 12

/-- Worker for `pySplit`: the first argument holds the current token
reversed. -/
def pyTokens : List Char → List Char → List String
  | acc, [] => if acc.isEmpty then [] else [String.mk acc.reverse]
  | acc, c :: rest =>
      if pyWs c then
        if acc.isEmpty then pyTokens [] rest
        else String.mk acc.reverse :: pyTokens [] rest
      else pyTokens (c :: acc) rest

/-- Python `str.split()` with no separator: split on runs of whitespace,
dropping empty pieces. -/
def pySplit (s : String) : List String :=
  pyTokens [] s.data

/-- Python `str(x)` on a decoded JSON value, as interpolated by the
f-strings in `export_book`. In every run of the pipeline the formatted
values are strings, where `str` is the identity; the container cases give
the shape of Python's `repr`-based rendering (without escape sequences,
which no claim exercises). -/
def pyFormat : Json → String
  | Json.str s => s
  | Json.null => "None"
  | Json.bool true => "True"
  | Json.bool false => "False"
  | Json.num n => toString n
  | Json.arr _ => "[...]"
  | Json.obj _ => "{...}"

/-- `Character` dataclass: field values are whatever JSON values the
backend supplied (the dataclass does not enforce its annotations). -/
structure Character where
  name : Json
  background : Json
  personality : Json
  goals : Json
  relationships : Json


/-- `Scene` dataclass. -/
structure Scene where
  content : String
  pov_character : Option String
  location : Option String


/-- `Chapter` dataclass. `summary` is stored verbatim from the outline
entry, hence a JSON value. -/
structure Chapter where
  number : Nat
  title : String
  summary : Json
  scenes : List Scene
  word_count : Nat


/-- `Book` dataclass. -/
structure Book where
  title : String
  genre : String
  target_audience : String
  themes : List String
  characters : List Character
  chapters : List Chapter
  metadata : List (String × String)


/-- The required keyword set of `Character(**char)`. -/
def requiredCharFields : List String :=
  ["name", "background", "personality", "goals", "relationships"]

/-- Whether `Character(**char)` succeeds on this element: `char` must be a
dict whose key set is exactly the five dataclass fields. -/
def charWellFormed : Json → Bool
  | Json.obj fs =>
      fs.length == 5 &&
      (fs.map Prod.fst).Nodup &&
      requiredCharFields.all (fun k => (jlookup fs k).isSome)
  | _ => false

/-- Field projection used on a well-formed character object (total, with a
default that a well-formed object never reaches). -/
def charField (j : Json) (k : String) : Json :=
  match j with
  | Json.obj fs => (jlookup fs k).getD Json.null
  | _ => Json.null

/-- The `Character` built by `Character(**char)` on a well-formed element. -/
def charValue (j : Json) : Character :=
  { name := charField j "name"
    background := charField j "background"
    personality := charField j "personality"
    goals := charField j "goals"
    relationships := charField j "relationships" }

/-- `Character(**char)` itself: a `TypeError` unless the element is a dict
carrying exactly the required fields. -/
def mkCharacter (j : Json) : Except PyErr Character :=
  if charWellFormed j then Except.ok (charValue j)
  else Except.error PyErr.typeError

/-- The list comprehension `[Character(**char) for char in characters]`:
elements are converted left to right, and the first failing conversion
raises. -/
def buildCharacters : List Json → Except PyErr (List Character)
  | [] => Except.ok []
  | j :: rest =>
      match mkCharacter j with
      | Except.error e => Except.error e
      | Except.ok c =>
          match buildCharacters rest with
          | Except.error e => Except.error e
          | Except.ok cs => Except.ok (c :: cs)

/-- `BookGenerator.create_characters`, applied to the decoded backend
response (`none` = `json.JSONDecodeError`, which the function catches).
A `TypeError` from `Character(**char)` propagates uncaught. -/
def create_characters (resp : Option Json) : Except PyErr (List Character) :=
  match resp with
  | none => Except.ok []
  | some (Json.arr xs) => buildCharacters xs
  | some _ => Except.ok []

/-- The `{"chapters": []}` fallback value of `create_plot_outline`. -/
def emptyOutline : Json :=
  Json.obj [("chapters", Json.arr [])]

/-- `BookGenerator.create_plot_outline`, applied to the decoded backend
response (`none` = `json.JSONDecodeError`, which the function catches).
Evaluates `"chapters" in plot and isinstance(plot["chapters"], list)` with
Python's semantics, where both subexpressions can raise `TypeError` on a
non-dict `plot`. -/
def create_plot_outline (resp : Option Json) : Except PyErr Json :=
  match resp with
  | none => Except.ok emptyOutline
  | some plot =>
      match pyContains "chapters" plot with
      | Except.error e => Except.error e
      | Except.ok false => Except.ok emptyOutline
      | Except.ok true =>
          match pySubscript plot "chapters" with
          | Except.error e => Except.error e
          | Except.ok v =>
              if isPyList v then Except.ok plot else Except.ok emptyOutline

/-- `BookGenerator.generate_chapter`. The backend's completion for the
expansion prompt is passed in as `response` (the call to
`generate_response` made explicit). A falsy summary yields the sentinel
placeholder chapter; otherwise the chapter is built from the response with
`word_count = len(content.split())`. -/
def generate_chapter (n : Nat) (summary : Json) (response : String) : Chapter :=
  if pyTruthy summary then
    { number := n
      title := "Chapter " ++ toString n
      summary := summary
      scenes := [{ content := response, pov_character := none, location := none }]
      word_count := (pySplit response).length }
  else
    { number := 0
      title := ""
      summary := Json.str ""
      scenes := [{ content := "", pov_character := none, location := none }]
      word_count := 0 }

/-- User input as `get_user_input` returns it (all four keys present). -/
structure UserInput where
  title : String
  genre : String
  themes : List String
  num_chapters : Nat


/-- `BookGenerator.initialize_book` on `get_user_input` output (the
`target_audience` default fires, the `title` default does not since the
key is always present). -/
def initialize_book (u : UserInput) : Book :=
  { title := u.title
    genre := u.genre
    target_audience := "General"
    themes := u.themes
    characters := []
    chapters := []
    metadata := [("created_by", "AI"), ("version", "1.0")] }

/-- Concatenation of a list of strings, in order (the sequence of
`f.write` calls). -/
def strConcat : List String → String
  | [] => ""
  | s :: rest => s ++ strConcat rest

/-- The header line written for a chapter:
`f"Chapter {chapter.number}: {chapter.title}"`. -/
def headerOf (c : Chapter) : String :=
  "Chapter " ++ toString c.number ++ ": " ++ c.title

/-- One chapter block of `export_book`: header line, summary line, blank
line, then each scene's content followed by a blank line. -/
def chapterBlock (c : Chapter) : String :=
  headerOf c ++ "\n" ++
  pyFormat c.summary ++ "\n\n" ++
  strConcat (c.scenes.map (fun sc => sc.content ++ "\n\n"))

/-- `BookGenerator.export_book`, modelled as the document string written
to `generated_novel.txt` (directory creation and the file handle are
incidental I/O). -/
def export_doc (b : Book) : String :=
  "Title: " ++ b.title ++ "\n" ++
  "Genre: " ++ b.genre ++ "\n" ++
  "Themes: " ++ String.intercalate ", " b.themes ++ "\n\n" ++
  strConcat (b.chapters.map chapterBlock)

/-- Outcome of a run of `main`: an uncaught exception, the early return
on an empty chapter list (carrying the printed message), or the exported
book together with the written document. -/
inductive RunResult where
  | raised : PyErr → RunResult
  | aborted : String → RunResult
  | exported : Book → String → RunResult


/-- The chapter loop of `main`, building the chapters for positions
`i, i+1, …, i+count-1`: each iteration evaluates
`plot["chapters"][i]["summary"]` (either subscript may raise) and appends
`generate_chapter(i+1, summary)`. `chaptersJson` is the value of
`plot["chapters"]`; `resp` gives the backend completion for each index. -/
def buildChaptersFrom (chaptersJson : Json) (resp : Nat → String) :
    Nat → Nat → Except PyErr (List Chapter)
  | _, 0 => Except.ok []
  | i, count + 1 =>
      match pyIndex chaptersJson i with
      | Except.error e => Except.error e
      | Except.ok entry =>
          match pySubscript entry "summary" with
          | Except.error e => Except.error e
          | Except.ok summary =>
              match buildChaptersFrom chaptersJson resp (i + 1) count with
              | Except.error e => Except.error e
              | Except.ok rest =>
                  Except.ok (generate_chapter (i + 1) summary (resp i) :: rest)

/-- `main`, with the terminal input and the three kinds of backend
response made explicit: `charsResp` and `outlineResp` are the decoded
character-list and outline responses, `resp i` the completion for the
expansion prompt of chapter index `i`. -/
def runPipeline (u : UserInput) (charsResp outlineResp : Option Json)
    (resp : Nat → String) : RunResult :=
  let book := initialize_book u
  match create_characters charsResp with
  | Except.error e => RunResult.raised e
  | Except.ok cs =>
      match create_plot_outline outlineResp with
      | Except.error e => RunResult.raised e
      | Except.ok plot =>
          match pySubscript plot "chapters" with
          | Except.error e => RunResult.raised e
          | Except.ok chaptersJson =>
              if pyTruthy chaptersJson then
                match buildChaptersFrom chaptersJson resp 0 u.num_chapters with
                | Except.error e => RunResult.raised e
                | Except.ok chapters =>
                    let finished :=
                      { book with characters := cs, chapters := chapters }
                    RunResult.exported finished (export_doc finished)
              else
                RunResult.aborted "⚠️ No chapters were generated. Exiting."

/-- Whether an outline entry is a JSON object carrying a `summary` key, so
that the loop body's `plot["chapters"][i]["summary"]` lookup succeeds on
it. -/
def entryHasSummary : Json → Bool
  | Json.obj fs => (jlookup fs "summary").isSome
  | _ => false

/-- The list `[s, s+1, …, s+n-1]`: the expected contiguous chapter
numbering. -/
def contiguousFrom : Nat → Nat → List Nat
  | _, 0 => []
  | s, n + 1 => s :: contiguousFrom (s + 1) n

/-- A line of the exported document, with its terminating newline. -/
def lineOf (l : String) : String := l ++ "\n"

/-- Modelled from the spec: the lines a scene contributes to the exported
document — the scene's content, then a blank line. -/
def sceneSpecLines (sc : Scene) : List String := [sc.content, ""]

/-- Modelled from the spec: the lines a chapter contributes — header line
`Chapter <number>: <title>`, the summary line, a blank line, then each
scene's lines. -/
def chapterSpecLines (c : Chapter) : List String :=
  ("Chapter " ++ toString c.number ++ ": " ++ c.title) ::
  pyFormat c.summary :: "" :: (c.scenes.map sceneSpecLines).flatten

/-- Modelled from the spec: the full line sequence of the document —
title line, genre line, themes line (comma-joined), a blank line, then
each chapter's lines. -/
def specDocLines (b : Book) : List String :=
  ("Title: " ++ b.title) :: ("Genre: " ++ b.genre) ::
  ("Themes: " ++ String.intercalate ", " b.themes) :: "" ::
  (b.chapters.map chapterSpecLines).flatten

/-- Modelled from the spec: the document as the concatenation of its
newline-terminated lines. -/
def specDoc (b : Book) : String :=
  strConcat ((specDocLines b).map lineOf)

/-- The round-trip example book of the spec: themes
`["hope", "betrayal"]` and one chapter numbered 1 titled "Start". -/
def roundTripBook : Book :=
  { title := "T", genre := "Fantasy", target_audience := "General",
    themes := ["hope", "betrayal"], characters := [],
    chapters := [
      { number := 1, title := "Start", summary := Json.str "S",
        scenes := [{ content := "Body", pov_character := none, location := none }],
        word_count := 1 }],
    metadata := [] }

/-- Whether a run reached the export stage. -/
def isExportedRun : RunResult → Bool
  | RunResult.exported _ _ => true
  | _ => false

/-- The chapter numbers of the exported book of a run (empty when the run
did not export). -/
def exportedChapterNumbers : RunResult → List Nat
  | RunResult.exported b _ => b.chapters.map Chapter.number
  | _ => []

/-! ## Supporting lemmas -/

theorem buildCharacters_ok (xs : List Json)
    (h : ∀ j ∈ xs, charWellFormed j = true) :
    buildCharacters xs = Except.ok (xs.map charValue) := by
  induction xs with
  | nil => rfl
  | cons j rest ih =>
      have hj : charWellFormed j = true := h j (List.mem_cons_self j rest)
      have hr := ih (fun x hx => h x (List.mem_cons_of_mem j hx))
      simp [buildCharacters, mkCharacter, hj, hr]

theorem buildCharacters_error (xs : List Json) (j : Json) (hmem : j ∈ xs)
    (hbad : charWellFormed j = false) :
    buildCharacters xs = Except.error PyErr.typeError := by
  induction xs with
  | nil => cases hmem
  | cons x rest ih =>
      cases hx : charWellFormed x with
      | false => simp [buildCharacters, mkCharacter, hx]
      | true =>
          have hjr : j ∈ rest := by
            cases List.mem_cons.mp hmem with
            | inl heq => rw [heq, hx] at hbad; cases hbad
            | inr hr => exact hr
          simp [buildCharacters, mkCharacter, hx, ih hjr]

/-! ## Claims -/

/-- C1 (amended): for malformed JSON and for any decoded value that is
not an array, `create_characters` returns the empty character list
without raising; but as soon as some element of an array input is not an
object with exactly the required fields, `Character(**char)` raises a
`TypeError` that propagates out of `create_characters`. -/
theorem claim_c1 :
    create_characters none = Except.ok [] ∧
    (∀ j : Json, isPyList j = false → create_characters (some j) = Except.ok []) ∧
    (∀ (xs : List Json) (j : Json), j ∈ xs → charWellFormed j = false →
      create_characters (some (Json.arr xs)) = Except.error PyErr.typeError) := by
  refine ⟨rfl, ?_, ?_⟩
  · intro j hj
    cases j with
    | arr xs => simp [isPyList] at hj
    | null => rfl
    | bool b => rfl
    | num n => rfl
    | str s => rfl
    | obj fs => rfl
  · intro xs j hmem hbad
    exact buildCharacters_error xs j hmem hbad

/-- C1 witness: a decoded non-array value yields the empty list, and an
array whose element lacks required fields raises. -/
theorem claim_c1_witness :
    create_characters (some (Json.str "oops")) = Except.ok [] ∧
    create_characters (some (Json.arr [Json.obj [("name", Json.str "A")]])) =
      Except.error PyErr.typeError :=
  ⟨claim_c1.2.1 (Json.str "oops") rfl,
   claim_c1.2.2 [Json.obj [("name", Json.str "A")]]
     (Json.obj [("name", Json.str "A")]) (List.mem_singleton.mpr rfl) rfl⟩

/-- C1 counterexample: on the JSON array `[{}]` — an array whose element
omits every required field — `create_characters` does not return an
empty sequence; it raises a `TypeError`. -/
theorem claim_c1_counterexample :
    create_characters (some (Json.arr [Json.obj []])) =
      Except.error PyErr.typeError ∧
    create_characters (some (Json.arr [Json.obj []])) ≠
      Except.ok [] :=
  ⟨rfl, fun h => nomatch h⟩

/-- C3 (amended): for a requested chapter whose outline summary is the
empty string (or any other falsy value, such as `null`),
`generate_chapter` returns the placeholder Chapter with number 0, empty
title, empty summary, exactly one Scene with empty content and
word_count 0; an outline entry with no `summary` key at all instead
raises a `KeyError` in the orchestrating loop before `generate_chapter`
is reached. -/
theorem claim_c3 (n : Nat) (summary : Json) (response : String)
    (h : pyTruthy summary = false) :
    generate_chapter n summary response =
      { number := 0, title := "", summary := Json.str "",
        scenes := [{ content := "", pov_character := none, location := none }],
        word_count := 0 } := by
  simp [generate_chapter, h]

/-- C3 witness: the empty-string summary produces the placeholder. -/
theorem claim_c3_witness :
    pyTruthy (Json.str "") = false ∧
    generate_chapter 2 (Json.str "") "some prose" =
      { number := 0, title := "", summary := Json.str "",
        scenes := [{ content := "", pov_character := none, location := none }],
        word_count := 0 } :=
  ⟨rfl, claim_c3 2 (Json.str "") "some prose" rfl⟩

/-- C3 counterexample: when the outline entry omits the `summary` key,
the run raises `KeyError` instead of producing a placeholder chapter. -/
theorem claim_c3_counterexample :
    runPipeline { title := "T", genre := "G", themes := ["t"], num_chapters := 1 }
      none
      (some (Json.obj [("chapters", Json.arr [Json.obj []])]))
      (fun _ => "w") = RunResult.raised (PyErr.keyError "summary") := rfl

/-- C6: for a decoded character-list response that is an array whose
elements are all objects with exactly the required fields,
`create_characters` returns one `Character` per element, in order, with
each field copied verbatim from the element. -/
theorem claim_c6 (xs : List Json) (h : ∀ j ∈ xs, charWellFormed j = true) :
    create_characters (some (Json.arr xs)) = Except.ok (xs.map charValue) ∧
    (xs.map charValue).length = xs.length :=
  ⟨buildCharacters_ok xs h, List.length_map xs charValue⟩

/-- C6 witness: a concrete two-object array yields two characters with
verbatim fields. -/
theorem claim_c6_witness :
    create_characters (some (Json.arr
      [Json.obj [("name", Json.str "A"), ("background", Json.str "B"),
                 ("personality", Json.str "P"), ("goals", Json.str "G"),
                 ("relationships", Json.obj [("Mentor", Json.str "M")])],
       Json.obj [("relationships", Json.obj []), ("goals", Json.str "g2"),
                 ("personality", Json.str "p2"), ("background", Json.str "b2"),
                 ("name", Json.str "n2")]])) =
    Except.ok [
      { name := Json.str "A", background := Json.str "B",
        personality := Json.str "P", goals := Json.str "G",
        relationships := Json.obj [("Mentor", Json.str "M")] },
      { name := Json.str "n2", background := Json.str "b2",
        personality := Json.str "p2", goals := Json.str "g2",
        relationships := Json.obj [] }] := by
  have h := claim_c6
    [Json.obj [("name", Json.str "A"), ("background", Json.str "B"),
               ("personality", Json.str "P"), ("goals", Json.str "G"),
               ("relationships", Json.obj [("Mentor", Json.str "M")])],
     Json.obj [("relationships", Json.obj []), ("goals", Json.str "g2"),
               ("personality", Json.str "p2"), ("background", Json.str "b2"),
               ("name", Json.str "n2")]]
    (by
      intro j hj
      cases hj with
      | head => rfl
      | tail _ h2 =>
          cases h2 with
          | head => rfl
          | tail _ h3 => cases h3)
  exact h.1

/-- C7: for every chapter `generate_chapter` produces — placeholder or
expanded — `word_count` equals the number of whitespace-delimited tokens
in the concatenation of its scenes' content. -/
theorem claim_c7 (n : Nat) (summary : Json) (response : String) :
    (generate_chapter n summary response).word_count =
      (pySplit (strConcat
        ((generate_chapter n summary response).scenes.map Scene.content))).length := by
  cases h : pyTruthy summary with
  | true => simp [generate_chapter, h, strConcat, String.append_empty]
  | false =>
      simp [generate_chapter, h, strConcat]
      rfl

/-- C10: an expanded (non-placeholder) chapter's title is the literal
string `Chapter n`, never the outline entry's title, so its exported
header line reads `Chapter n: Chapter n`. -/
theorem claim_c10 (n : Nat) (summary : Json) (response : String)
    (h : pyTruthy summary = true) :
    (generate_chapter n summary response).title = "Chapter " ++ toString n ∧
    headerOf (generate_chapter n summary response) =
      "Chapter " ++ toString n ++ ": " ++ ("Chapter " ++ toString n) := by
  constructor <;> simp [generate_chapter, h, headerOf]

/-- C10 witness: chapter 4 with a usable summary is titled "Chapter 4"
and its header line reads "Chapter 4: Chapter 4". -/
theorem claim_c10_witness :
    pyTruthy (Json.str "s") = true ∧
    ((generate_chapter 4 (Json.str "s") "x").title = "Chapter " ++ toString 4 ∧
     headerOf (generate_chapter 4 (Json.str "s") "x") =
       "Chapter " ++ toString 4 ++ ": " ++ ("Chapter " ++ toString 4)) :=
  ⟨rfl, claim_c10 4 (Json.str "s") "x" rfl⟩

theorem entryHasSummary_elim (j : Json) (h : entryHasSummary j = true) :
    ∃ fs v, j = Json.obj fs ∧ jlookup fs "summary" = some v := by
  cases j with
  | obj fs =>
      simp only [entryHasSummary] at h
      obtain ⟨v, hv⟩ := Option.isSome_iff_exists.mp h
      exact ⟨fs, v, rfl, hv⟩
  | null => simp [entryHasSummary] at h
  | bool b => simp [entryHasSummary] at h
  | num n => simp [entryHasSummary] at h
  | str s => simp [entryHasSummary] at h
  | arr xs => simp [entryHasSummary] at h

theorem buildChaptersFrom_ok (chs : List Json) (resp : Nat → String) :
    ∀ count i, i + count ≤ chs.length →
    (∀ j ∈ chs, entryHasSummary j = true) →
    ∃ cs, buildChaptersFrom (Json.arr chs) resp i count = Except.ok cs ∧
      cs.length = count := by
  intro count
  induction count with
  | zero => exact fun i _ _ => ⟨[], rfl, rfl⟩
  | succ k ih =>
      intro i hlen hsum
      have hi : i < chs.length := by omega
      have hidx : pyIndex (Json.arr chs) i = Except.ok chs[i] := by
        simp [pyIndex, List.getElem?_eq_getElem hi]
      have hmem : chs[i] ∈ chs := List.get_mem chs i hi
      obtain ⟨fs, v, hentry, hv⟩ := entryHasSummary_elim _ (hsum _ hmem)
      have hsub : pySubscript chs[i] "summary" = Except.ok v := by
        rw [hentry]; simp [pySubscript, hv]
      obtain ⟨cs, hcs, hlencs⟩ := ih (i + 1) (by omega) hsum
      refine ⟨generate_chapter (i + 1) v (resp i) :: cs, ?_, by simp [hlencs]⟩
      simp [buildChaptersFrom, hidx, hsub, hcs]

/-- C2 (amended): for every run whose outline stage yields a chapter
array with at least N entries, each of them an object carrying a
`summary` key, the chapter-generation loop completes for all N positions
without raising — any summary value and any backend completion is
absorbed as a normal or placeholder chapter. There is no
Orchestrator-side length check: an outline array shorter than N makes
the unguarded lookup `plot["chapters"][i]` raise `IndexError` (see the
counterexample), and only the empty-outline condition terminates the run
early by the guard before the loop. -/
theorem claim_c2 (chs : List Json) (resp : Nat → String) (n : Nat)
    (hlen : n ≤ chs.length)
    (hsum : ∀ j ∈ chs, entryHasSummary j = true) :
    ∃ cs, buildChaptersFrom (Json.arr chs) resp 0 n = Except.ok cs ∧
      cs.length = n :=
  buildChaptersFrom_ok chs resp n 0 (by omega) hsum

/-- C2 witness: a one-entry outline with a one-chapter request completes. -/
theorem claim_c2_witness :
    1 ≤ ([Json.obj [("summary", Json.str "s")]] : List Json).length ∧
    ∃ cs, buildChaptersFrom (Json.arr [Json.obj [("summary", Json.str "s")]])
      (fun _ => "a b") 0 1 = Except.ok cs ∧ cs.length = 1 :=
  ⟨by decide,
   claim_c2 [Json.obj [("summary", Json.str "s")]] (fun _ => "a b") 1
     (by decide)
     (by
       intro j hj
       cases hj with
       | head => rfl
       | tail _ h2 => cases h2)⟩

/-- C2 counterexample: with a non-empty outline of one entry and a
requested chapter count of two, the loop raises `IndexError` at the
second position instead of absorbing the failure — there is no
Orchestrator-side length check. -/
theorem claim_c2_counterexample :
    runPipeline { title := "T", genre := "G", themes := ["t"], num_chapters := 2 }
      none
      (some (Json.obj [("chapters", Json.arr [Json.obj [("summary", Json.str "x")]])]))
      (fun _ => "w") = RunResult.raised PyErr.indexError := rfl

/-- C4: whenever the character stage does not raise and the outline stage
returns a result whose `chapters` value is the empty array, the run stops
at the guard before the chapter loop with the user-facing message, and no
export happens (the result is `aborted`, not `exported`). -/
theorem claim_c4 (u : UserInput) (charsResp outlineResp : Option Json)
    (resp : Nat → String) (cs : List Character) (plot : Json)
    (hc : create_characters charsResp = Except.ok cs)
    (ho : create_plot_outline outlineResp = Except.ok plot)
    (hch : pySubscript plot "chapters" = Except.ok (Json.arr [])) :
    runPipeline u charsResp outlineResp resp =
      RunResult.aborted "⚠️ No chapters were generated. Exiting." := by
  simp [runPipeline, hc, ho, hch, pyTruthy]

/-- C4 witness: a run whose outline response is malformed gets the empty
outline and aborts with the message. -/
theorem claim_c4_witness :
    runPipeline { title := "T", genre := "G", themes := ["x"], num_chapters := 3 }
      none none (fun _ => "") =
      RunResult.aborted "⚠️ No chapters were generated. Exiting." :=
  claim_c4 { title := "T", genre := "G", themes := ["x"], num_chapters := 3 }
    none none (fun _ => "") [] emptyOutline rfl rfl rfl

/-- C5 (amended): `create_plot_outline` returns the empty outline without
raising for malformed JSON, for a JSON object lacking a `chapters` key,
and for a JSON object whose `chapters` value is not an array; but for a
non-container top-level value (such as a bare number) the membership test
`"chapters" in plot` raises a `TypeError` that propagates (see the
counterexample). -/
theorem claim_c5 :
    create_plot_outline none = Except.ok emptyOutline ∧
    (∀ fs : List (String × Json), jlookup fs "chapters" = none →
      create_plot_outline (some (Json.obj fs)) = Except.ok emptyOutline) ∧
    (∀ (fs : List (String × Json)) (v : Json),
      jlookup fs "chapters" = some v → isPyList v = false →
      create_plot_outline (some (Json.obj fs)) = Except.ok emptyOutline) := by
  refine ⟨rfl, ?_, ?_⟩
  · intro fs hnone
    simp only [jlookup] at hnone
    have hfind := Option.map_eq_none'.mp hnone
    have hany : (fs.any (fun p => p.1 == "chapters")) = false := by
      cases hx : fs.any (fun p => p.1 == "chapters") with
      | false => rfl
      | true =>
          obtain ⟨p, hp, hpred⟩ := List.any_eq_true.mp hx
          exact absurd hpred (List.find?_eq_none.mp hfind p hp)
    simp [create_plot_outline, pyContains, hany]
  · intro fs v hsome hnotlist
    have hsome' := hsome
    simp only [jlookup] at hsome'
    obtain ⟨q, hfind, hq2⟩ := Option.map_eq_some'.mp hsome'
    have hqpred := List.find?_some hfind
    have hany : (fs.any (fun p => p.1 == "chapters")) = true :=
      List.any_eq_true.mpr ⟨q, List.mem_of_find?_eq_some hfind, hqpred⟩
    simp [create_plot_outline, pyContains, hany, pySubscript, hsome, hnotlist]

/-- C5 witness: an object without a `chapters` key, and an object whose
`chapters` value is a number, both yield the empty outline. -/
theorem claim_c5_witness :
    create_plot_outline (some (Json.obj [("x", Json.null)])) =
      Except.ok emptyOutline ∧
    create_plot_outline (some (Json.obj [("chapters", Json.num 1)])) =
      Except.ok emptyOutline :=
  ⟨claim_c5.2.1 [("x", Json.null)] rfl,
   claim_c5.2.2 [("chapters", Json.num 1)] (Json.num 1) rfl rfl⟩

/-- C5 counterexample: the decoded outline response `5` lacks a
`chapters` key, yet `create_plot_outline` does not return the empty
outline — the `in` test raises `TypeError`. -/
theorem claim_c5_counterexample :
    create_plot_outline (some (Json.num 5)) = Except.error PyErr.typeError ∧
    create_plot_outline (some (Json.num 5)) ≠ Except.ok emptyOutline :=
  ⟨rfl, fun h => nomatch h⟩

theorem buildChaptersFrom_numbers (cJ : Json) (resp : Nat → String) :
    ∀ count i cs, buildChaptersFrom cJ resp i count = Except.ok cs →
    (∀ c ∈ cs, c.number ≠ 0) →
    cs.map Chapter.number = contiguousFrom (i + 1) count := by
  intro count
  induction count with
  | zero =>
      intro i cs h _
      simp only [buildChaptersFrom] at h
      injection h with h
      rw [← h]
      rfl
  | succ k ih =>
      intro i cs h hnum
      simp only [buildChaptersFrom] at h
      cases hidx : pyIndex cJ i with
      | error e => simp [hidx] at h
      | ok entry =>
          simp only [hidx] at h
          cases hsub : pySubscript entry "summary" with
          | error e => simp [hsub] at h
          | ok summary =>
              simp only [hsub] at h
              cases hrec : buildChaptersFrom cJ resp (i + 1) k with
              | error e => simp [hrec] at h
              | ok rest =>
                  simp only [hrec, Except.ok.injEq] at h
                  subst h
                  have hhead : (generate_chapter (i + 1) summary (resp i)).number ≠ 0 :=
                    hnum _ (List.mem_cons_self _ _)
                  have htruthy : pyTruthy summary = true := by
                    cases ht : pyTruthy summary with
                    | true => rfl
                    | false => exact absurd (by simp [generate_chapter, ht]) hhead
                  have hrest := ih (i + 1) rest hrec
                    (fun c hc => hnum c (List.mem_cons_of_mem _ hc))
                  simp [generate_chapter, htruthy, contiguousFrom, hrest]

/-- C8 (amended): for every Book assembled by a run that reaches export,
*provided no chapter was degraded to the number-0 placeholder*, the
chapter numbers are contiguous starting at 1 in generation order; a run
in which some summary is falsy instead keeps the placeholder's number 0
in sequence, breaking contiguity (see the counterexample). -/
theorem claim_c8 (u : UserInput) (charsResp outlineResp : Option Json)
    (resp : Nat → String) (b : Book) (doc : String)
    (hrun : runPipeline u charsResp outlineResp resp = RunResult.exported b doc)
    (hnum : ∀ c ∈ b.chapters, c.number ≠ 0) :
    b.chapters.map Chapter.number = contiguousFrom 1 u.num_chapters := by
  unfold runPipeline at hrun
  cases hc : create_characters charsResp with
  | error e => simp [hc] at hrun
  | ok cs =>
      simp only [hc] at hrun
      cases ho : create_plot_outline outlineResp with
      | error e => simp [ho] at hrun
      | ok plot =>
          simp only [ho] at hrun
          cases hch : pySubscript plot "chapters" with
          | error e => simp [hch] at hrun
          | ok chaptersJson =>
              simp only [hch] at hrun
              cases htr : pyTruthy chaptersJson with
              | false => simp [htr] at hrun
              | true =>
                  simp only [htr] at hrun
                  cases hloop : buildChaptersFrom chaptersJson resp 0 u.num_chapters with
                  | error e => simp [hloop] at hrun
                  | ok chapters =>
                      simp only [hloop, if_true, RunResult.exported.injEq] at hrun
                      obtain ⟨hb, hdoc⟩ := hrun
                      have hch2 : b.chapters = chapters := by rw [← hb]
                      rw [hch2]
                      rw [hch2] at hnum
                      exact buildChaptersFrom_numbers chaptersJson resp
                        u.num_chapters 0 chapters hloop hnum

/-- C8 counterexample: a run whose first summary is empty reaches export
with chapter numbers `[0, 2]` — not contiguous from 1. -/
theorem claim_c8_counterexample :
    isExportedRun (runPipeline
      { title := "T", genre := "G", themes := ["t"], num_chapters := 2 } none
      (some (Json.obj [("chapters", Json.arr
        [Json.obj [("summary", Json.str "")],
         Json.obj [("summary", Json.str "s")]])]))
      (fun _ => "text here")) = true ∧
    exportedChapterNumbers (runPipeline
      { title := "T", genre := "G", themes := ["t"], num_chapters := 2 } none
      (some (Json.obj [("chapters", Json.arr
        [Json.obj [("summary", Json.str "")],
         Json.obj [("summary", Json.str "s")]])]))
      (fun _ => "text here")) = [0, 2] ∧
    ([0, 2] : List Nat) ≠ contiguousFrom 1 2 :=
  ⟨rfl, rfl, by decide⟩

/-- C8 witness: a one-chapter run with a usable summary exports a book
whose chapter numbers are `[1]`. -/
theorem claim_c8_witness :
    ({ title := "T", genre := "G", target_audience := "General",
       themes := ["t"], characters := [],
       chapters := [
         { number := 1, title := "Chapter 1", summary := Json.str "s",
           scenes := [{ content := "hi hi", pov_character := none, location := none }],
           word_count := 2 }],
       metadata := [("created_by", "AI"), ("version", "1.0")] } : Book).chapters.map
      Chapter.number = contiguousFrom 1 1 :=
  claim_c8 { title := "T", genre := "G", themes := ["t"], num_chapters := 1 }
    none
    (some (Json.obj [("chapters", Json.arr [Json.obj [("summary", Json.str "s")]])]))
    (fun _ => "hi hi")
    { title := "T", genre := "G", target_audience := "General",
      themes := ["t"], characters := [],
      chapters := [
        { number := 1, title := "Chapter 1", summary := Json.str "s",
          scenes := [{ content := "hi hi", pov_character := none, location := none }],
          word_count := 2 }],
      metadata := [("created_by", "AI"), ("version", "1.0")] }
    (export_doc
      { title := "T", genre := "G", target_audience := "General",
        themes := ["t"], characters := [],
        chapters := [
          { number := 1, title := "Chapter 1", summary := Json.str "s",
            scenes := [{ content := "hi hi", pov_character := none, location := none }],
            word_count := 2 }],
        metadata := [("created_by", "AI"), ("version", "1.0")] })
    rfl
    (by
      intro c hc
      cases hc with
      | head => simp
      | tail _ h2 => cases h2)

theorem strConcat_append (l1 l2 : List String) :
    strConcat (l1 ++ l2) = strConcat l1 ++ strConcat l2 := by
  induction l1 with
  | nil => rfl
  | cons s rest ih => simp [strConcat, ih, String.append_assoc]

theorem scene_lines_concat (scenes : List Scene) :
    strConcat (((scenes.map sceneSpecLines).flatten).map lineOf) =
      strConcat (scenes.map (fun sc => sc.content ++ "\n\n")) := by
  induction scenes with
  | nil => rfl
  | cons sc rest ih =>
      simp only [List.map_cons, List.flatten_cons, List.map_append,
        strConcat_append, ih]
      simp only [sceneSpecLines, lineOf, List.map_cons, List.map_nil,
        strConcat, String.append_assoc]
      rfl

theorem chapter_lines_concat (c : Chapter) :
    strConcat ((chapterSpecLines c).map lineOf) = chapterBlock c := by
  simp only [chapterSpecLines, List.map_cons, strConcat, lineOf,
    scene_lines_concat]
  simp only [chapterBlock, headerOf, String.append_assoc]
  rfl

theorem chapters_lines_concat (chs : List Chapter) :
    strConcat (((chs.map chapterSpecLines).flatten).map lineOf) =
      strConcat (chs.map chapterBlock) := by
  induction chs with
  | nil => rfl
  | cons c rest ih =>
      simp only [List.map_cons, List.flatten_cons, List.map_append,
        strConcat_append, ih, chapter_lines_concat]
      rfl

/-- C9: `export_book` writes the document in the fixed layout — title
line, genre line, comma-joined themes line, then per chapter the header
line `Chapter <number>: <title>`, the summary line, a blank line, each
scene's content and a blank line (this is `specDoc`, built from the
spec's line-by-line description); and on the spec's round-trip example
the themes line reads `Themes: hope, betrayal` and the chapter header
reads `Chapter 1: Start`. -/
theorem claim_c9 :
    (∀ b : Book, export_doc b = specDoc b) ∧
    export_doc roundTripBook =
      "Title: T\nGenre: Fantasy\nThemes: hope, betrayal\n\nChapter 1: Start\nS\n\nBody\n\n" := by
  constructor
  · intro b
    simp only [specDoc, specDocLines, List.map_cons, strConcat, lineOf,
      chapters_lines_concat]
    simp only [export_doc, String.append_assoc]
    rfl
  · rfl
